import Mathlib

/-!
Shallow embedding of the HopeCoach conversational relay
(health_agent.ts, api/chat.ts, and the tool-calling agent variant),
together with theorems about its behaviour.

JavaScript values exchanged as JSON are modelled by the `Json` inductive;
`jsonParse` models the builtin `JSON.parse` (returning `none` where the
builtin throws; integer numerals only, no escape sequences).  The network
(`fetch` / the OpenAI client) and the environment are passed in explicitly,
so that each run of the code is a pure function of its inputs.
-/

namespace HopeCoach

/-- Model of a JavaScript JSON value. -/
inductive Json where
  | null
  | bool (b : Bool)
  | num (n : Int)
  | str (s : String)
  | arr (elems : List Json)
  | obj (fields : List (String × Json))

/-- First-match association lookup, as in a JavaScript object (keys unique). -/
def lookupField : List (String × Json) → String → Option Json
  | [], _ => none
  | (k', v) :: fs, k => if k' = k then some v else lookupField fs k

/-- Property access `v.k`: defined on objects, `undefined` (= `none`) otherwise. -/
def Json.lookup : Json → String → Option Json
  | .obj fs, k => lookupField fs k
  | _, _ => none

/-- Index access `v[i]`: array element, single-character string for strings,
`undefined` (= `none`) otherwise. -/
def Json.getIdx : Json → Nat → Option Json
  | .arr xs, i => xs.get? i
  | .str s, i => (s.toList.get? i).map (fun ch => Json.str (String.mk [ch]))
  | _, _ => none

/-- Whether a `Json` value is a string. -/
def Json.isStr : Json → Bool
  | .str _ => true
  | _ => false

/-- JavaScript truthiness of a JSON value. -/
def jsTruthy : Json → Bool
  | .null => false
  | .bool b => b
  | .num n => decide (n ≠ 0)
  | .str s => !s.isEmpty
  | .arr _ => true
  | .obj _ => true

/-- JavaScript truthiness of a possibly-undefined string
(an environment variable or an optional string field). -/
def jsTruthyStr : Option String → Bool
  | none => false
  | some s => !s.isEmpty

/-- The assignment `obj[k] = v` on an association list: updates the value in
place if the key exists, appends otherwise. -/
def setKey : List (String × Json) → String → Json → List (String × Json)
  | [], k, v => [(k, v)]
  | (k', v') :: fs, k, v =>
    if k' = k then (k', v) :: fs else (k', v') :: setKey fs k v

/-- Object spread `\x7b ...base, ...extra \x7d`: later fields override earlier
values while the first occurrence keeps its position. -/
def spreadFields (base extra : List (String × Json)) : List (String × Json) :=
  extra.foldl (fun acc kv => setKey acc kv.1 kv.2) base

mutual
/-- Serialization of a JSON value, modelling `JSON.stringify`
(string escape sequences not modelled). -/
def Json.stringify : Json → String
  | .null => "null"
  | .bool b => cond b "true" "false"
  | .num n => toString n
  | .str s => "\"" ++ s ++ "\""
  | .arr xs => "[" ++ stringifyElems xs ++ "]"
  | .obj fs => "\x7b" ++ stringifyFields fs ++ "\x7d"

/-- Comma-separated serialization of array elements. -/
def stringifyElems : List Json → String
  | [] => ""
  | [x] => x.stringify
  | x :: y :: xs => x.stringify ++ "," ++ stringifyElems (y :: xs)

/-- Comma-separated serialization of object fields. -/
def stringifyFields : List (String × Json) → String
  | [] => ""
  | [(k, v)] => "\"" ++ k ++ "\":" ++ v.stringify
  | (k, v) :: f :: fs => "\"" ++ k ++ "\":" ++ v.stringify ++ "," ++ stringifyFields (f :: fs)
end

/-- Skip JSON whitespace. -/
def skipWs : List Char → List Char
  | [] => []
  | c :: cs => if c = ' ' || c = '\n' || c = '\t' || c = '\r' then skipWs cs else c :: cs

/-- Parse the body of a string literal after the opening quote
(escape sequences not modelled). -/
def parseStrBody : List Char → Option (String × List Char)
  | [] => none
  | c :: cs =>
    if c = '"' then some ("", cs)
    else
      match parseStrBody cs with
      | some (s, r) => some (String.mk (c :: s.toList), r)
      | none => none

/-- Numeric value of a run of decimal digits. -/
def digitsToNat (ds : List Char) : Nat :=
  ds.foldl (fun a c => a * 10 + (c.toNat - 48)) 0

/-- Parse an integer numeral (JSON fractions and exponents not modelled). -/
def parseNum : List Char → Option (Json × List Char)
  | '-' :: rest =>
    let p := rest.span (fun c => c.isDigit)
    if p.1.isEmpty then none else some (.num (-(digitsToNat p.1 : Int)), p.2)
  | cs =>
    let p := cs.span (fun c => c.isDigit)
    if p.1.isEmpty then none else some (.num (digitsToNat p.1), p.2)

mutual
/-- Fuel-indexed parser for a JSON value. -/
def parseVal : Nat → List Char → Option (Json × List Char)
  | 0, _ => none
  | fuel + 1, cs =>
    match skipWs cs with
    | [] => none
    | c :: rest =>
      if c = '"' then
        match parseStrBody rest with
        | some (s, r) => some (.str s, r)
        | none => none
      else if c = 't' then
        if rest.take 3 = ['r', 'u', 'e'] then some (.bool true, rest.drop 3) else none
      else if c = 'f' then
        if rest.take 4 = ['a', 'l', 's', 'e'] then some (.bool false, rest.drop 4) else none
      else if c = 'n' then
        if rest.take 3 = ['u', 'l', 'l'] then some (.null, rest.drop 3) else none
      else if c = '[' then
        match skipWs rest with
        | ']' :: r2 => some (.arr [], r2)
        | _ =>
          match parseElems fuel rest with
          | some (xs, r2) => some (.arr xs, r2)
          | none => none
      else if c = '\x7b' then
        match skipWs rest with
        | '\x7d' :: r2 => some (.obj [], r2)
        | _ =>
          match parseFields fuel rest with
          | some (fs, r2) => some (.obj fs, r2)
          | none => none
      else parseNum (c :: rest)

/-- Fuel-indexed parser for the elements of a non-empty array. -/
def parseElems : Nat → List Char → Option (List Json × List Char)
  | 0, _ => none
  | fuel + 1, cs =>
    match parseVal fuel cs with
    | none => none
    | some (v, r) =>
      match skipWs r with
      | ',' :: r2 =>
        match parseElems fuel r2 with
        | some (xs, r3) => some (v :: xs, r3)
        | none => none
      | ']' :: r2 => some ([v], r2)
      | _ => none

/-- Fuel-indexed parser for the fields of a non-empty object. -/
def parseFields : Nat → List Char → Option (List (String × Json) × List Char)
  | 0, _ => none
  | fuel + 1, cs =>
    match skipWs cs with
    | '"' :: rest =>
      match parseStrBody rest with
      | none => none
      | some (k, r) =>
        match skipWs r with
        | ':' :: r2 =>
          match parseVal fuel r2 with
          | none => none
          | some (v, r3) =>
            match skipWs r3 with
            | ',' :: r4 =>
              match parseFields fuel r4 with
              | some (fs, r5) => some ((k, v) :: fs, r5)
              | none => none
            | '\x7d' :: r4 => some ([(k, v)], r4)
            | _ => none
        | _ => none
    | _ => none
end

/-- Model of `JSON.parse`: `none` where the builtin throws a `SyntaxError`. -/
def jsonParse (s : String) : Option Json :=
  match parseVal (2 * s.length + 2) s.toList with
  | some (v, r) => if (skipWs r).isEmpty then some v else none
  | none => none

/-!
Embedding of `health_agent.ts` (the variant imported by `api/chat.ts`):
the `chat` function that prepends the fixed system prompt to the caller
history and performs one `fetch` of the chat-completions endpoint.
Caller messages are arbitrary JSON values, as at the JavaScript runtime.
-/

/-- Process environment: the one secret read by `chat`. -/
structure Env where
  OPENAI_API_KEY : Option String

/-- Content of the fixed system prompt of `health_agent.ts`. -/
def systemContent : String :=
  "You are HopeCoach: a warm, concise wellbeing coach. Be supportive, practical, and non-judgmental."

/-- The system message prepended to every conversation. -/
def systemMessage : Json :=
  .obj [("role", .str "system"), ("content", .str systemContent)]

/-- Body of the outbound POST to the chat-completions endpoint. -/
structure ProviderRequest where
  model : String
  messages : List Json
  max_tokens : Nat

/-- Result of `fetch`: an HTTP status and the response text. -/
structure FetchResponse where
  status : Nat
  bodyText : String

/-- Model of `response.ok`: status in the inclusive range 200 to 299. -/
def FetchResponse.ok (r : FetchResponse) : Bool :=
  decide (200 ≤ r.status ∧ r.status < 300)

/-- A thrown `Error`, carrying its message. -/
structure ChatError where
  message : String

/-- Return value of `chat` on success:
the assistant message `\x7b role: "assistant", content \x7d`. -/
structure AssistantMsg where
  content : Json

/-- JSON form of the assistant message returned by `chat`. -/
def AssistantMsg.toJson (m : AssistantMsg) : Json :=
  .obj [("role", .str "assistant"), ("content", m.content)]

/-- Model of `txt.slice(0, n)`: the first `n` characters of the string. -/
def jsSlice (s : String) (n : Nat) : String :=
  String.mk (s.toList.take n)

/-- The request body built by `chat`:
system message first, then the caller history in order. -/
def buildRequest (history : List Json) : ProviderRequest :=
  { model := "gpt-4o-mini", messages := systemMessage :: history, max_tokens := 500 }

/-- Extraction `data?.choices?.[0]?.message?.content` combined with the
null-coalescing step: a final `null` also selects the fallback. -/
def extractReply (data : Json) : Option Json :=
  match (((data.lookup "choices").bind (fun c => c.getIdx 0)).bind
      (fun c0 => c0.lookup "message")).bind (fun m => m.lookup "content") with
  | some .null => none
  | r => r

/-- Fallback reply text used when extraction fails. -/
def fallbackText : String :=
  "Sorry, I couldn\x27t generate a response."

/-- Outcome of one run of `chat`: the returned value or thrown error,
together with the sequence of provider requests actually issued. -/
structure ChatOutcome where
  result : Except ChatError AssistantMsg
  requests : List ProviderRequest

/-- The `chat` function of `health_agent.ts`.  The environment, the
`JSON.parse` builtin and the network (`fetch`, returning the response for a
given request body) are explicit parameters. -/
def chat (env : Env) (parseJSON : String → Option Json)
    (provider : ProviderRequest → FetchResponse) (history : List Json) : ChatOutcome :=
  if !(jsTruthyStr env.OPENAI_API_KEY) then
    { result := .error ⟨"Missing OPENAI_API_KEY in environment."⟩, requests := [] }
  else
    let req := buildRequest history
    let r := provider req
    let txt := r.bodyText
    { result :=
        if !r.ok then
          .error ⟨"OpenAI " ++ toString r.status ++ ": " ++ jsSlice txt 500⟩
        else
          match parseJSON txt with
          | none => .error ⟨"OpenAI returned non-JSON: " ++ jsSlice txt 500⟩
          | some data => .ok ⟨(extractReply data).getD (.str fallbackText)⟩,
      requests := [req] }

/-!
Embedding of `api/chat.ts`: the HTTP handler.  The request body is either
absent (`none`, JavaScript `undefined`) or a JSON value; a `Json.str` body
is what `typeof body === "string"` recognises.
-/

/-- Inbound HTTP request as seen by the handler. -/
structure HttpRequest where
  method : String
  body : Option Json

/-- Outbound HTTP response: status and optional JSON body
(`none` for `end()` with no body). -/
structure HttpResponse where
  status : Nat
  body : Option Json

/-- The 400 error message of the handler. -/
def badRequestMsg : String :=
  "Expected body: \x7b messages: [\x7b role, content \x7d, ...] \x7d"

/-- The HTTP handler of `api/chat.ts`, parameterised by the `chat` pipeline
it invokes and by the `JSON.parse` builtin. -/
def handler (chatFn : List Json → Except ChatError AssistantMsg)
    (parseJSON : String → Option Json) (req : HttpRequest) : HttpResponse :=
  if req.method = "OPTIONS" then
    { status := 204, body := none }
  else if req.method ≠ "POST" then
    { status := 405, body := some (.obj [("error", .str "Method not allowed")]) }
  else
    let body : Option Json :=
      match req.body with
      | some (.str s) =>
        match parseJSON s with
        | some j => some j
        | none => some (.str s)
      | b => b
    match body.bind (fun b => b.lookup "messages") with
    | some (.arr ms) =>
      match chatFn ms with
      | .ok reply => { status := 200, body := some (.obj [("reply", reply.toJson)]) }
      | .error e => { status := 500, body := some (.obj [("error", .str e.message)]) }
    | _ => { status := 400, body := some (.obj [("error", .str badRequestMsg)]) }

/-- The deployed pipeline: the handler wired to the `chat` of
`health_agent.ts`. -/
def hopeCoachHandler (env : Env) (parseJSON : String → Option Json)
    (provider : ProviderRequest → FetchResponse) (req : HttpRequest) : HttpResponse :=
  handler (fun ms => (chat env parseJSON provider ms).result) parseJSON req

/-!
Embedding of the tool-calling agent variant: the module with `tools`,
`toolSchema` and the two-phase `chat(userMsg, userId)`.  The OpenAI client
is an explicit parameter mapping a message list to the first choice's
message; wall-clock timestamps are fields of `AgentEnv`.
-/

/-- System prompt of the tool-calling agent (tone and safety guidelines). -/
def systemPrompt : String :=
  "\nYou are HopeCoach, a compassionate, practical AI life‑coach for people with\ncancer and their caregivers. Your mission is to help users remember and track\nmedications, appointments, and simple routines; provide gentle lifestyle\nguidance appropriate for cancer patients; support mental wellbeing with\ncheck‑ins, reflective listening, and simple coping strategies; and remind\nusers that you are not a doctor, encouraging them to follow their care team’s\ninstructions for anything clinical.\n\nTone: warm, brief, empowering, non‑judgmental. Use plain language. Offer\none to three options when helpful and celebrate small wins.\n\nSafety & Boundaries:\n• You are not a doctor. Do not prescribe medication, modify dosages,\n  interpret lab results or diagnose conditions.\n• If a user reports urgent or severe symptoms (trouble breathing, chest\n  pain, uncontrolled bleeding, fever ≥ 38 °C/100.4 °F during chemotherapy,\n  severe allergic reaction, self‑harm risk), respond empathetically and\n  advise contacting their care team or emergency services immediately. If\n  self‑harm is mentioned, also provide a crisis hotline relevant to their\n  locale.\n• If asked about changing a dose or timing, encourage contacting their\n  oncologist or pharmacist and reviewing printed instructions. Do not give\n  explicit medical advice.\n• Ask a clarifying question if information is missing or ambiguous. Respect\n  user privacy: only remember details the user explicitly asks you to.\n\nCore capabilities:\n• Medication support: remind and log when to take medication; handle\n  missed doses by advising not to double dose unless a clinician has\n  instructed otherwise; suggest contacting the care team for guidance.\n• Side‑effect logging: capture nausea, pain, fatigue or other symptoms;\n  highlight when severe side‑effects warrant escalation.\n• Mental health check‑ins: ask for mood on a 0–10 scale; if low, offer\n  simple coping steps (breathing, journaling, contacting a friend) and\n  encourage reaching out to the care team if needed.\n• Lifestyle nudges: remind about hydration, short walks or stretches,\n  balanced meals and sleep hygiene, ensuring these are suggestions and\n  subject to doctor approval.\n• Caregiver support: include caregivers in the conversation, providing\n  simple tips and reminding them to care for themselves.\n\nEscalation template (use verbatim when appropriate):\n\"I\x27m concerned about what you shared. I\x27m here with you, but I\x27m not a\n doctor. Please contact your care team now, or if you feel you\x27re in\n danger, call emergency services. If you need someone to talk to\n immediately, a crisis line can help.\"\n"

/-- The `function` field of a provider tool call:
tool name and raw JSON-encoded arguments (possibly absent). -/
structure ToolCallFn where
  name : String
  arguments : Option String

/-- One tool invocation requested by the provider. -/
structure ToolCall where
  id : String
  function : ToolCallFn

/-- The first choice's message of a provider response:
reply content and requested tool calls (empty list when absent). -/
structure AssistantApiMessage where
  content : Option String
  tool_calls : List ToolCall

/-- One entry pushed onto `toolResults`. -/
structure ToolResult where
  tool_call_id : String
  role : String
  name : String
  content : String

/-- Messages of the requests sent by the tool-calling agent. -/
inductive ChatMsg where
  | system (content : String)
  | user (content : String)
  | assistant (m : AssistantApiMessage)
  | tool (tool_call_id : String) (name : String) (content : String)

/-- Ambient clock values read by the mock tool handlers. -/
structure AgentEnv where
  today : String
  now : String

/-- The `tools.getMedSchedule` mock handler: a deterministic schedule record
for the given user identifier. -/
def getMedSchedule (today : String) (userId : Json) : Json :=
  .obj [("date", .str today), ("userId", userId),
        ("medications", .arr [
          .obj [("name", .str "Letrozole"), ("dose", .str "2.5 mg"),
                ("time", .str "08:00"), ("withFood", .bool true)],
          .obj [("name", .str "Ondansetron"), ("dose", .str "8 mg"),
                ("time", .str "18:00"), ("asNeeded", .bool true)]])]

/-- The `tools.logEvent` mock handler: the payload spread after a
server-assigned timestamp (index spread of primitive payloads not modelled). -/
def logEvent (now : String) (payload : Json) : Json :=
  match payload with
  | .obj fs => .obj (spreadFields [("recordedAt", .str now)] fs)
  | _ => .obj [("recordedAt", .str now)]

/-- Exceptions thrown inside the tool-calling agent. -/
inductive AgentError where
  | jsonParse (input : String)

/-- Argument parsing of one tool call:
`call.function.arguments ? JSON.parse(call.function.arguments) : \x7b\x7d`.
A falsy (absent or empty) string yields the empty object; a present string
goes through `JSON.parse`, whose failure is a thrown exception. -/
def argsOf (parseJSON : String → Option Json) (c : ToolCall) : Except AgentError Json :=
  match c.function.arguments with
  | none => .ok (.obj [])
  | some raw =>
    if raw.isEmpty then .ok (.obj [])
    else
      match parseJSON raw with
      | some j => .ok j
      | none => .error (.jsonParse raw)

/-- The argument actually passed to `getMedSchedule`:
`args.userId || userId` (truthy-or with the caller-supplied fallback). -/
def medScheduleArg (args : Json) (userId : String) : Json :=
  match args.lookup "userId" with
  | some v => if jsTruthy v then v else .str userId
  | none => .str userId

/-- The `switch (call.function.name)` dispatch over the tool registry. -/
def dispatch (env : AgentEnv) (userId : String) (args : Json) (name : String) : Json :=
  if name = "getMedSchedule" then getMedSchedule env.today (medScheduleArg args userId)
  else if name = "logEvent" then logEvent env.now args
  else .obj [("error", .str ("Unknown function: " ++ name))]

/-- The parsed arguments of a call when parsing succeeds
(the empty object as a default value otherwise). -/
def argsD (parseJSON : String → Option Json) (c : ToolCall) : Json :=
  match argsOf parseJSON c with
  | .ok a => a
  | .error _ => .obj []

/-- The tool-result entry the loop pushes for one call whose arguments
parsed successfully. -/
def mkToolResult (env : AgentEnv) (userId : String)
    (parseJSON : String → Option Json) (c : ToolCall) : ToolResult :=
  { tool_call_id := c.id, role := "tool", name := c.function.name,
    content := (dispatch env userId (argsD parseJSON c) c.function.name).stringify }

/-- The tool-dispatch loop over `assistantMessage.tool_calls`: parses each
call's arguments, dispatches, and pushes one tagged result per call, in
order.  A thrown exception aborts the whole batch. -/
def resolveCalls (env : AgentEnv) (userId : String)
    (parseJSON : String → Option Json) : List ToolCall → Except AgentError (List ToolResult)
  | [] => .ok []
  | c :: cs => do
    let args ← argsOf parseJSON c
    let result := dispatch env userId args c.function.name
    let rest ← resolveCalls env userId parseJSON cs
    pure ({ tool_call_id := c.id, role := "tool", name := c.function.name,
            content := result.stringify } :: rest)

/-- The message list of the follow-up provider request: the prior messages
followed by the tool results as tool-role messages. -/
def followUpMessages (userMsg : String) (am : AssistantApiMessage)
    (results : List ToolResult) : List ChatMsg :=
  [ChatMsg.system systemPrompt, ChatMsg.user userMsg, ChatMsg.assistant am] ++
    results.map (fun r => ChatMsg.tool r.tool_call_id r.name r.content)

/-- Final reply extraction `JSON.parse(message.content!).reply`:
an absent content behaves like the string "undefined", parse failure is a
thrown exception, and an absent `reply` field yields `none`. -/
def parseReplyField (parseJSON : String → Option Json)
    (content : Option String) : Except AgentError (Option Json) :=
  let s := match content with | some s => s | none => "undefined"
  match parseJSON s with
  | none => .error (.jsonParse s)
  | some j => .ok (j.lookup "reply")

/-- The two-phase `chat(userMsg, userId)` of the tool-calling agent. -/
def agentChat (env : AgentEnv) (parseJSON : String → Option Json)
    (provider : List ChatMsg → AssistantApiMessage)
    (userMsg userId : String) : Except AgentError (Option Json) :=
  let am := provider [ChatMsg.system systemPrompt, ChatMsg.user userMsg]
  if am.tool_calls.isEmpty then parseReplyField parseJSON am.content
  else do
    let results ← resolveCalls env userId parseJSON am.tool_calls
    let final := provider (followUpMessages userMsg am results)
    parseReplyField parseJSON final.content

/-!
Theorems.
-/

/-- When the arguments of every call in a batch parse successfully, the
dispatch loop returns one tagged result per call, in order. -/
theorem resolveCalls_eq_map (env : AgentEnv) (uid : String)
    (parseJSON : String → Option Json) (calls : List ToolCall)
    (hargs : ∀ c ∈ calls, ∃ a, argsOf parseJSON c = .ok a) :
    resolveCalls env uid parseJSON calls =
      .ok (calls.map (mkToolResult env uid parseJSON)) := by
  induction calls with
  | nil => rfl
  | cons c cs ih =>
    obtain ⟨a, ha⟩ := hargs c (List.mem_cons_self c cs)
    have hrest := ih (fun c' hc' => hargs c' (List.mem_cons_of_mem c hc'))
    simp [resolveCalls, ha, hrest, Bind.bind, Except.bind, pure, Except.pure,
      mkToolResult, argsD]

/-- C1: for every history passed to `chat`, the outbound message sequence has
the fixed system prompt as first element, and the remaining elements are
exactly the caller's messages in their original order. -/
theorem chat_system_first (env : Env) (parseJSON : String → Option Json)
    (provider : ProviderRequest → FetchResponse) (history : List Json)
    (hkey : jsTruthyStr env.OPENAI_API_KEY = true) :
    (chat env parseJSON provider history).requests = [buildRequest history] ∧
    (buildRequest history).messages.head? = some systemMessage ∧
    (buildRequest history).messages.tail = history := by
  refine ⟨?_, rfl, rfl⟩
  simp [chat, hkey]

/-- Witness for `chat_system_first` at a concrete one-message history. -/
theorem chat_system_first_w :
    (chat ⟨some "sk-test"⟩ jsonParse (fun _ => ⟨200, "\x7b\x7d"⟩)
        [Json.obj [("role", Json.str "user"), ("content", Json.str "hi")]]).requests =
      [buildRequest [Json.obj [("role", Json.str "user"), ("content", Json.str "hi")]]] ∧
    (buildRequest [Json.obj [("role", Json.str "user"), ("content", Json.str "hi")]]).messages.head? =
      some systemMessage ∧
    (buildRequest [Json.obj [("role", Json.str "user"), ("content", Json.str "hi")]]).messages.tail =
      [Json.obj [("role", Json.str "user"), ("content", Json.str "hi")]] :=
  chat_system_first ⟨some "sk-test"⟩ jsonParse (fun _ => ⟨200, "\x7b\x7d"⟩)
    [Json.obj [("role", Json.str "user"), ("content", Json.str "hi")]] rfl

/-- C3: while the API key is absent, `chat` fails with the configuration
error and the provider is called zero times. -/
theorem chat_missing_key_no_fetch (env : Env) (parseJSON : String → Option Json)
    (provider : ProviderRequest → FetchResponse) (history : List Json)
    (hnone : env.OPENAI_API_KEY = none) :
    (chat env parseJSON provider history).result =
      .error ⟨"Missing OPENAI_API_KEY in environment."⟩ ∧
    (chat env parseJSON provider history).requests = [] := by
  constructor <;> simp [chat, hnone, jsTruthyStr]

/-- Witness for `chat_missing_key_no_fetch` at a concrete run. -/
theorem chat_missing_key_no_fetch_w :
    (chat ⟨none⟩ jsonParse (fun _ => ⟨200, "\x7b\x7d"⟩) []).result =
      .error ⟨"Missing OPENAI_API_KEY in environment."⟩ ∧
    (chat ⟨none⟩ jsonParse (fun _ => ⟨200, "\x7b\x7d"⟩) []).requests = [] :=
  chat_missing_key_no_fetch ⟨none⟩ jsonParse (fun _ => ⟨200, "\x7b\x7d"⟩) [] rfl

/-- C4: on a non-success provider status, `chat` fails with an error carrying
the status code and the response body truncated to at most 500 characters,
a prefix of the raw body. -/
theorem chat_provider_error_truncated (env : Env) (parseJSON : String → Option Json)
    (provider : ProviderRequest → FetchResponse) (history : List Json)
    (hkey : jsTruthyStr env.OPENAI_API_KEY = true)
    (hbad : (provider (buildRequest history)).ok = false) :
    (chat env parseJSON provider history).result =
      .error ⟨"OpenAI " ++ toString (provider (buildRequest history)).status ++ ": " ++
        jsSlice (provider (buildRequest history)).bodyText 500⟩ ∧
    (jsSlice (provider (buildRequest history)).bodyText 500).length ≤ 500 ∧
    (jsSlice (provider (buildRequest history)).bodyText 500).toList <+:
      (provider (buildRequest history)).bodyText.toList := by
  refine ⟨?_, ?_, ?_⟩
  · simp [chat, hkey, hbad]
  · show ((provider (buildRequest history)).bodyText.toList.take 500).length ≤ 500
    rw [List.length_take]
    exact min_le_left _ _
  · exact List.take_prefix _ _

/-- Witness for `chat_provider_error_truncated` at a concrete 429 response. -/
theorem chat_provider_error_truncated_w :
    (chat ⟨some "sk-test"⟩ jsonParse (fun _ => ⟨429, "rate limited"⟩) []).result =
      .error ⟨"OpenAI " ++ toString (429 : Nat) ++ ": " ++ jsSlice "rate limited" 500⟩ ∧
    (jsSlice "rate limited" 500).length ≤ 500 ∧
    (jsSlice "rate limited" 500).toList <+: "rate limited".toList :=
  chat_provider_error_truncated ⟨some "sk-test"⟩ jsonParse (fun _ => ⟨429, "rate limited"⟩)
    [] rfl rfl

/-- C5: on a success status whose parsed body has no extractable reply,
`chat` returns the fixed fallback string instead of failing; a non-success
status is still an error, never masked by the fallback. -/
theorem chat_fallback_when_extract_fails (env : Env) (parseJSON : String → Option Json)
    (provider : ProviderRequest → FetchResponse) (history : List Json) (data : Json)
    (hkey : jsTruthyStr env.OPENAI_API_KEY = true)
    (hok : (provider (buildRequest history)).ok = true)
    (hparse : parseJSON (provider (buildRequest history)).bodyText = some data)
    (hext : extractReply data = none) :
    (chat env parseJSON provider history).result = .ok ⟨.str fallbackText⟩ ∧
    ∀ provider2 : ProviderRequest → FetchResponse,
      (provider2 (buildRequest history)).ok = false →
      ∃ e, (chat env parseJSON provider2 history).result = .error e := by
  constructor
  · simp [chat, hkey, hok, hparse, hext]
  · intro provider2 h2
    exact ⟨⟨"OpenAI " ++ toString (provider2 (buildRequest history)).status ++ ": " ++
      jsSlice (provider2 (buildRequest history)).bodyText 500⟩, by simp [chat, hkey, h2]⟩

/-- Witness for `chat_fallback_when_extract_fails` at a concrete empty-object
response and a concrete 500 response. -/
theorem chat_fallback_when_extract_fails_w :
    (chat ⟨some "sk-test"⟩ jsonParse (fun _ => ⟨200, "\x7b\x7d"⟩) []).result =
      .ok ⟨.str fallbackText⟩ ∧
    ∃ e, (chat ⟨some "sk-test"⟩ jsonParse (fun _ => ⟨500, "boom"⟩) []).result = .error e :=
  ⟨(chat_fallback_when_extract_fails ⟨some "sk-test"⟩ jsonParse
      (fun _ => ⟨200, "\x7b\x7d"⟩) [] (Json.obj []) rfl rfl rfl rfl).1,
   (chat_fallback_when_extract_fails ⟨some "sk-test"⟩ jsonParse
      (fun _ => ⟨200, "\x7b\x7d"⟩) [] (Json.obj []) rfl rfl rfl rfl).2
     (fun _ => ⟨500, "boom"⟩) rfl⟩

/-- C2 counterexample: a concrete successful pipeline run responds with
status 200, but the `reply` field of the body holds the whole assistant
message object, not a string. -/
theorem handler_reply_not_string_cex :
    (hopeCoachHandler ⟨some "sk-test"⟩ jsonParse (fun _ => ⟨200, "\x7b\x7d"⟩)
        ⟨"POST", some (Json.obj [("messages", Json.arr [])])⟩).status = 200 ∧
    ((hopeCoachHandler ⟨some "sk-test"⟩ jsonParse (fun _ => ⟨200, "\x7b\x7d"⟩)
        ⟨"POST", some (Json.obj [("messages", Json.arr [])])⟩).body.bind
      (fun b => b.lookup "reply")) =
      some (Json.obj [("role", Json.str "assistant"), ("content", Json.str fallbackText)]) ∧
    Json.isStr (Json.obj [("role", Json.str "assistant"), ("content", Json.str fallbackText)]) =
      false :=
  ⟨rfl, rfl, rfl⟩

/-- C2 amended: on pipeline success the handler responds with status 200 and
body `\x7b reply: m \x7d` where `m` is the assistant message object
`\x7b role: "assistant", content \x7d` (the reply text sits in its `content`
field; the `reply` field itself is an object, not a string). -/
theorem handler_success_wraps_assistant (env : Env) (parseJSON : String → Option Json)
    (provider : ProviderRequest → FetchResponse) (ms : List Json) (c : Json)
    (hok : (chat env parseJSON provider ms).result = .ok ⟨c⟩) :
    hopeCoachHandler env parseJSON provider
        ⟨"POST", some (Json.obj [("messages", Json.arr ms)])⟩ =
      ⟨200, some (.obj [("reply",
        .obj [("role", .str "assistant"), ("content", c)])])⟩ := by
  simp [hopeCoachHandler, handler, hok, AssistantMsg.toJson, Json.lookup, lookupField]

/-- Witness for `handler_success_wraps_assistant` at a concrete run. -/
theorem handler_success_wraps_assistant_w :
    hopeCoachHandler ⟨some "sk-test"⟩ jsonParse (fun _ => ⟨200, "\x7b\x7d"⟩)
        ⟨"POST", some (Json.obj [("messages", Json.arr [])])⟩ =
      ⟨200, some (.obj [("reply",
        .obj [("role", .str "assistant"), ("content", .str fallbackText)])])⟩ :=
  handler_success_wraps_assistant ⟨some "sk-test"⟩ jsonParse (fun _ => ⟨200, "\x7b\x7d"⟩)
    [] (.str fallbackText) rfl

/-- C10: for a POST whose body is a string, the handler parses it as JSON and
proceeds with the parsed value when it holds a messages array; a string that
is not valid JSON, or whose parsed value lacks a messages array, is answered
with status 400 and the descriptive error, not a 500 or an exception. -/
theorem handler_string_body_parse (chatFn : List Json → Except ChatError AssistantMsg)
    (parseJSON : String → Option Json) (s : String) :
    (∀ j ms, parseJSON s = some j → j.lookup "messages" = some (Json.arr ms) →
      handler chatFn parseJSON ⟨"POST", some (Json.str s)⟩ =
        match chatFn ms with
        | .ok reply => ⟨200, some (.obj [("reply", reply.toJson)])⟩
        | .error e => ⟨500, some (.obj [("error", .str e.message)])⟩) ∧
    (parseJSON s = none →
      handler chatFn parseJSON ⟨"POST", some (Json.str s)⟩ =
        ⟨400, some (.obj [("error", .str badRequestMsg)])⟩) ∧
    (∀ j, parseJSON s = some j →
      (∀ ms, j.lookup "messages" ≠ some (Json.arr ms)) →
      handler chatFn parseJSON ⟨"POST", some (Json.str s)⟩ =
        ⟨400, some (.obj [("error", .str badRequestMsg)])⟩) := by
  refine ⟨?_, ?_, ?_⟩
  · intro j ms hp hm
    simp [handler, hp, hm]
  · intro hp
    simp [handler, hp, Json.lookup]
  · intro j hp hno
    cases hv : j.lookup "messages" with
    | none => simp [handler, hp, hv]
    | some v =>
      cases v with
      | arr ms => exact absurd hv (hno ms)
      | null => simp [handler, hp, hv]
      | bool b => simp [handler, hp, hv]
      | num n => simp [handler, hp, hv]
      | str t => simp [handler, hp, hv]
      | obj fs => simp [handler, hp, hv]

/-- Witness for `handler_string_body_parse` at three concrete string bodies. -/
theorem handler_string_body_parse_w :
    handler (fun _ => .ok ⟨.str "ok"⟩) jsonParse
        ⟨"POST", some (Json.str "\x7b\"messages\":[]\x7d")⟩ =
      ⟨200, some (.obj [("reply",
        .obj [("role", .str "assistant"), ("content", .str "ok")])])⟩ ∧
    handler (fun _ => .ok ⟨.str "ok"⟩) jsonParse ⟨"POST", some (Json.str "not json")⟩ =
      ⟨400, some (.obj [("error", .str badRequestMsg)])⟩ ∧
    handler (fun _ => .ok ⟨.str "ok"⟩) jsonParse ⟨"POST", some (Json.str "\x7b\x7d")⟩ =
      ⟨400, some (.obj [("error", .str badRequestMsg)])⟩ :=
  ⟨(handler_string_body_parse (fun _ => .ok ⟨.str "ok"⟩) jsonParse
      "\x7b\"messages\":[]\x7d").1 (Json.obj [("messages", Json.arr [])]) [] rfl rfl,
   (handler_string_body_parse (fun _ => .ok ⟨.str "ok"⟩) jsonParse "not json").2.1 rfl,
   (handler_string_body_parse (fun _ => .ok ⟨.str "ok"⟩) jsonParse "\x7b\x7d").2.2
     (Json.obj []) rfl (fun _ h => Option.noConfusion h)⟩

/-- C6: a batch containing an unknown tool name yields, for that invocation,
a result object of the shape `\x7b error: "Unknown function: <name>" \x7d` as
data, while the dispatcher still returns one result per invocation of the
whole batch. -/
theorem resolve_unknown_tool_continues (env : AgentEnv) (uid : String)
    (parseJSON : String → Option Json) (calls : List ToolCall) (i : Nat) (c : ToolCall)
    (hargs : ∀ c' ∈ calls, ∃ a, argsOf parseJSON c' = .ok a)
    (hc : calls[i]? = some c)
    (h1 : c.function.name ≠ "getMedSchedule") (h2 : c.function.name ≠ "logEvent") :
    ∃ results, resolveCalls env uid parseJSON calls = .ok results ∧
      results.length = calls.length ∧
      results[i]? = some ⟨c.id, "tool", c.function.name,
        (Json.obj [("error", Json.str ("Unknown function: " ++ c.function.name))]).stringify⟩ := by
  refine ⟨_, resolveCalls_eq_map env uid parseJSON calls hargs, by simp, ?_⟩
  rw [List.getElem?_map, hc]
  simp [mkToolResult, dispatch, h1, h2]

/-- Witness for `resolve_unknown_tool_continues`: a batch of one known and
one unknown tool name. -/
theorem resolve_unknown_tool_continues_w :
    ∃ results,
      resolveCalls ⟨"2026-10-12", "2026-10-12T00:00:00.000Z"⟩ "u1" jsonParse
          [⟨"id1", ⟨"getMedSchedule", none⟩⟩, ⟨"id2", ⟨"frobnicate", none⟩⟩] = .ok results ∧
      results.length = 2 ∧
      results[1]? = some ⟨"id2", "tool", "frobnicate",
        (Json.obj [("error", Json.str ("Unknown function: " ++ "frobnicate"))]).stringify⟩ :=
  resolve_unknown_tool_continues ⟨"2026-10-12", "2026-10-12T00:00:00.000Z"⟩ "u1" jsonParse
    [⟨"id1", ⟨"getMedSchedule", none⟩⟩, ⟨"id2", ⟨"frobnicate", none⟩⟩] 1
    ⟨"id2", ⟨"frobnicate", none⟩⟩
    (by intro c' h
        rcases List.mem_cons.mp h with rfl | h2
        · exact ⟨Json.obj [], rfl⟩
        rcases List.mem_cons.mp h2 with rfl | h3
        · exact ⟨Json.obj [], rfl⟩
        · cases h3)
    rfl (by decide) (by decide)

/-- C7 counterexample: a tool call whose `rawArguments` string is present but
not valid JSON makes the dispatcher throw a parse exception, aborting the
batch, instead of proceeding with the empty object. -/
theorem resolve_unparsable_args_throws_cex :
    resolveCalls ⟨"2026-10-12", "2026-10-12T00:00:00.000Z"⟩ "u1" jsonParse
        [⟨"call_1", ⟨"getMedSchedule", some "not json"⟩⟩] =
      .error (.jsonParse "not json") := rfl

/-- C7 amended: an absent or empty `rawArguments` yields the empty object as
parsed arguments and dispatch proceeds; a present `rawArguments` string that
does not parse as JSON throws, aborting the dispatch. -/
theorem argsOf_absent_or_throw (env : AgentEnv) (uid : String)
    (parseJSON : String → Option Json) (c : ToolCall) :
    ((c.function.arguments = none ∨ c.function.arguments = some "") →
      resolveCalls env uid parseJSON [c] =
        .ok [⟨c.id, "tool", c.function.name,
          (dispatch env uid (Json.obj []) c.function.name).stringify⟩]) ∧
    (∀ raw, c.function.arguments = some raw → raw.isEmpty = false →
      parseJSON raw = none →
      resolveCalls env uid parseJSON [c] = .error (.jsonParse raw)) := by
  constructor
  · rintro (h | h)
    · simp [resolveCalls, argsOf, h, Bind.bind, Except.bind, pure, Except.pure]
    · simp only [resolveCalls, argsOf, h, Bind.bind, Except.bind, pure, Except.pure]
      rfl
  · intro raw hraw hne hp
    simp [resolveCalls, argsOf, hraw, hne, hp, Bind.bind, Except.bind]

/-- Witness for `argsOf_absent_or_throw`: one call with absent arguments and
one with an unparsable argument string. -/
theorem argsOf_absent_or_throw_w :
    resolveCalls ⟨"2026-10-12", "2026-10-12T00:00:00.000Z"⟩ "u1" jsonParse
        [⟨"c1", ⟨"logEvent", none⟩⟩] =
      .ok [⟨"c1", "tool", "logEvent",
        (dispatch ⟨"2026-10-12", "2026-10-12T00:00:00.000Z"⟩ "u1" (Json.obj [])
          "logEvent").stringify⟩] ∧
    resolveCalls ⟨"2026-10-12", "2026-10-12T00:00:00.000Z"⟩ "u1" jsonParse
        [⟨"c2", ⟨"logEvent", some "oops"⟩⟩] =
      .error (.jsonParse "oops") :=
  ⟨(argsOf_absent_or_throw ⟨"2026-10-12", "2026-10-12T00:00:00.000Z"⟩ "u1" jsonParse
      ⟨"c1", ⟨"logEvent", none⟩⟩).1 (Or.inl rfl),
   (argsOf_absent_or_throw ⟨"2026-10-12", "2026-10-12T00:00:00.000Z"⟩ "u1" jsonParse
      ⟨"c2", ⟨"logEvent", some "oops"⟩⟩).2 "oops" rfl rfl rfl⟩

/-- C8: when the parsed arguments of a `getMedSchedule` invocation omit the
user identifier, dispatch invokes the schedule lookup with the
caller-supplied identifier, so the handler receives that identifier. -/
theorem dispatch_medschedule_fallback (env : AgentEnv) (uid : String) (args : Json)
    (h : args.lookup "userId" = none) :
    dispatch env uid args "getMedSchedule" = getMedSchedule env.today (Json.str uid) ∧
    (getMedSchedule env.today (Json.str uid)).lookup "userId" = some (Json.str uid) := by
  constructor
  · simp [dispatch, medScheduleArg, h]
  · simp [getMedSchedule, Json.lookup, lookupField]

/-- Witness for `dispatch_medschedule_fallback` at empty parsed arguments. -/
theorem dispatch_medschedule_fallback_w :
    dispatch ⟨"2026-10-12", "2026-10-12T00:00:00.000Z"⟩ "u1" (Json.obj [])
        "getMedSchedule" = getMedSchedule "2026-10-12" (Json.str "u1") ∧
    (getMedSchedule "2026-10-12" (Json.str "u1")).lookup "userId" =
      some (Json.str "u1") :=
  dispatch_medschedule_fallback ⟨"2026-10-12", "2026-10-12T00:00:00.000Z"⟩ "u1"
    (Json.obj []) rfl

/-- C9: the dispatcher emits exactly one tool-role message per invocation,
tagged with the originating invocation id and tool name, appended to the
follow-up conversation in the order the invocations were received. -/
theorem resolve_preserves_order_ids (env : AgentEnv) (uid : String)
    (parseJSON : String → Option Json) (userMsg : String) (am : AssistantApiMessage)
    (calls : List ToolCall)
    (hargs : ∀ c ∈ calls, ∃ a, argsOf parseJSON c = .ok a) :
    ∃ results, resolveCalls env uid parseJSON calls = .ok results ∧
      results.length = calls.length ∧
      followUpMessages userMsg am results =
        [ChatMsg.system systemPrompt, ChatMsg.user userMsg, ChatMsg.assistant am] ++
          calls.map (fun c => ChatMsg.tool c.id c.function.name
            ((dispatch env uid (argsD parseJSON c) c.function.name).stringify)) := by
  refine ⟨_, resolveCalls_eq_map env uid parseJSON calls hargs, by simp, ?_⟩
  simp [followUpMessages, mkToolResult, List.map_map, Function.comp]

/-- Witness for `resolve_preserves_order_ids` at a concrete two-call batch. -/
theorem resolve_preserves_order_ids_w :
    ∃ results,
      resolveCalls ⟨"2026-10-12", "2026-10-12T00:00:00.000Z"⟩ "u1" jsonParse
          [⟨"id1", ⟨"getMedSchedule", none⟩⟩, ⟨"id2", ⟨"logEvent", some "\x7b\x7d"⟩⟩] =
        .ok results ∧
      results.length = 2 ∧
      followUpMessages "I missed my evening pill" ⟨none,
          [⟨"id1", ⟨"getMedSchedule", none⟩⟩, ⟨"id2", ⟨"logEvent", some "\x7b\x7d"⟩⟩]⟩
          results =
        [ChatMsg.system systemPrompt, ChatMsg.user "I missed my evening pill",
         ChatMsg.assistant ⟨none,
          [⟨"id1", ⟨"getMedSchedule", none⟩⟩, ⟨"id2", ⟨"logEvent", some "\x7b\x7d"⟩⟩]⟩] ++
          [⟨"id1", ⟨"getMedSchedule", none⟩⟩,
           ⟨"id2", ⟨"logEvent", some "\x7b\x7d"⟩⟩].map
            (fun c => ChatMsg.tool c.id c.function.name
              ((dispatch ⟨"2026-10-12", "2026-10-12T00:00:00.000Z"⟩ "u1"
                (argsD jsonParse c) c.function.name).stringify)) :=
  resolve_preserves_order_ids ⟨"2026-10-12", "2026-10-12T00:00:00.000Z"⟩ "u1" jsonParse
    "I missed my evening pill"
    ⟨none, [⟨"id1", ⟨"getMedSchedule", none⟩⟩, ⟨"id2", ⟨"logEvent", some "\x7b\x7d"⟩⟩]⟩
    [⟨"id1", ⟨"getMedSchedule", none⟩⟩, ⟨"id2", ⟨"logEvent", some "\x7b\x7d"⟩⟩]
    (by intro c' h
        rcases List.mem_cons.mp h with rfl | h2
        · exact ⟨Json.obj [], rfl⟩
        rcases List.mem_cons.mp h2 with rfl | h3
        · exact ⟨Json.obj [], rfl⟩
        · cases h3)

end HopeCoach
